import Mathlib

/-!
Verification of the terminal color printer (src/terminal.py).

The embedding below models the module shallowly:
* the three enumeration tables (TerminalColor, BackgroundColor, Style) become
  association lists from lowered names to ANSI code strings;
* _get_style_codes becomes a pure function returning the joined code string
  together with the error message printed on an invalid name (if any);
* builtins.print substitution is modelled by a PrintFn value inside a PState
  (current print function plus the bytes written to sys.stdout so far);
* color_context becomes enter/exit functions and a runner runCtx that mirrors
  the try/finally of the context manager, with the body returning a flag that
  records whether an exception propagates out of the with-block;
* the check_terminal_support decorator's color-disabled branch prints the raw
  positional call arguments, so each wrapper records the exact argument list
  it passes (Python values modelled by PyVal, with str() modelled by pyStr).
-/

namespace TermColor

/-- Reset escape sequence (TerminalColor.RESET in the source). -/
def RESET : String := "\x1b[0m"

/-- Foreground table: the _colors dict built in Terminal.__init__ from the
TerminalColor enum (lowered member names mapped to their codes). -/
def colorTable : List (String × String) :=
  [("black", "\x1b[30m"), ("red", "\x1b[31m"), ("green", "\x1b[32m"),
   ("yellow", "\x1b[33m"), ("blue", "\x1b[34m"), ("magenta", "\x1b[35m"),
   ("cyan", "\x1b[36m"), ("light_gray", "\x1b[37m"), ("default", "\x1b[39m"),
   ("dark_gray", "\x1b[90m"), ("light_red", "\x1b[91m"),
   ("light_green", "\x1b[92m"), ("light_yellow", "\x1b[93m"),
   ("light_blue", "\x1b[94m"), ("light_magenta", "\x1b[95m"),
   ("light_cyan", "\x1b[96m"), ("white", "\x1b[97m"), ("reset", "\x1b[0m")]

/-- Background table: the _backgrounds dict built from BackgroundColor. -/
def backgroundTable : List (String × String) :=
  [("black", "\x1b[40m"), ("red", "\x1b[41m"), ("green", "\x1b[42m"),
   ("yellow", "\x1b[43m"), ("blue", "\x1b[44m"), ("magenta", "\x1b[45m"),
   ("cyan", "\x1b[46m"), ("light_gray", "\x1b[47m"), ("default", "\x1b[49m"),
   ("dark_gray", "\x1b[100m"), ("light_red", "\x1b[101m"),
   ("light_green", "\x1b[102m"), ("light_yellow", "\x1b[103m"),
   ("light_blue", "\x1b[104m"), ("light_magenta", "\x1b[105m"),
   ("light_cyan", "\x1b[106m"), ("white", "\x1b[107m")]

/-- Style table: the _styles dict built from the Style enum. -/
def styleTable : List (String × String) :=
  [("bold", "\x1b[1m"), ("dim", "\x1b[2m"), ("italic", "\x1b[3m"),
   ("underline", "\x1b[4m"), ("blink", "\x1b[5m"), ("reverse", "\x1b[7m"),
   ("hidden", "\x1b[8m"), ("strike", "\x1b[9m")]

/-- Case-lowering of a name, the str.lower() applied before each table
lookup (character-wise; the table keys are ASCII). -/
def strLower (s : String) : String := String.mk (s.data.map Char.toLower)

/-- Lookup of a foreground color name, case-lowered as in
self._colors[fg_color.lower()]. -/
def resolveColor (s : String) : Option String := colorTable.lookup (strLower s)

/-- Lookup of a background color name, case-lowered as in the source. -/
def resolveBackground (s : String) : Option String :=
  backgroundTable.lookup (strLower s)

/-- Lookup of a style name, case-lowered as in the source. -/
def resolveStyle (s : String) : Option String := styleTable.lookup (strLower s)

/-- The styles argument of the printing functions: Python None, a single
string, or a list of strings (Optional[Union[str, List[str]]]). -/
inductive StylesArg
  | noneArg
  | strArg (s : String)
  | listArg (l : List String)
deriving DecidableEq

/-- The style_list normalisation: a single string becomes a one-element list
(the isinstance(styles, str) branch). -/
def styList : StylesArg → List String
  | StylesArg.noneArg => []
  | StylesArg.strArg s => [s]
  | StylesArg.listArg l => l

/-- Python truthiness of an optional string: None and the empty string are
falsy (the if fg_color / if bg_color guards). -/
def truthyStr : Option String → Bool
  | none => false
  | some s => !s.isEmpty

/-- Python truthiness of the styles argument (the if styles guard): None, the
empty string and the empty list are falsy. -/
def truthySty : StylesArg → Bool
  | StylesArg.noneArg => false
  | StylesArg.strArg s => !s.isEmpty
  | StylesArg.listArg l => !l.isEmpty

/-- Underlying string of an optional string argument (meaningful when the
argument is truthy, in which case it is some nonempty string). -/
def optVal : Option String → String
  | none => ""
  | some s => s

/-- The fg_color branch of _get_style_codes: on a truthy name, look it up,
otherwise contribute no code; an absent name yields the error message passed
to self.print_error. -/
def fgStep (fg : Option String) : Except String (List String) :=
  if truthyStr fg then
    match resolveColor (optVal fg) with
    | some c => Except.ok [c]
    | none => Except.error ("Invalid color: " ++ optVal fg)
  else Except.ok []

/-- The bg_color branch of _get_style_codes. -/
def bgStep (bg : Option String) : Except String (List String) :=
  if truthyStr bg then
    match resolveBackground (optVal bg) with
    | some c => Except.ok [c]
    | none => Except.error ("Invalid background color: " ++ optVal bg)
  else Except.ok []

/-- The for-loop over style_list in _get_style_codes: codes in order, stopping
at the first invalid name with its error message. -/
def styStepList : List String → Except String (List String)
  | [] => Except.ok []
  | s :: rest =>
    match resolveStyle s with
    | none => Except.error ("Invalid style: " ++ s)
    | some c =>
      match styStepList rest with
      | Except.error e => Except.error e
      | Except.ok cs => Except.ok (c :: cs)

/-- The styles branch of _get_style_codes (guarded by truthiness). -/
def styStep (sty : StylesArg) : Except String (List String) :=
  if truthySty sty then styStepList (styList sty) else Except.ok []

/-- The codes list accumulated by _get_style_codes (shared with the identical
resolution loop of _write_style_begin): foreground first, then background,
then styles in the order given; the first invalid name aborts with its error
message and nothing is kept. -/
def collectCodes (fg bg : Option String) (sty : StylesArg) :
    Except String (List String) :=
  match fgStep fg with
  | Except.error e => Except.error e
  | Except.ok cf =>
    match bgStep bg with
    | Except.error e => Except.error e
    | Except.ok cb =>
      match styStep sty with
      | Except.error e => Except.error e
      | Except.ok cs => Except.ok (cf ++ cb ++ cs)

/-- Result of Terminal._get_style_codes: the returned string (the joined codes,
or the empty string on any invalid name) paired with the error message handed
to self.print_error (none when every name resolved). -/
def get_style_codes (fg bg : Option String) (sty : StylesArg) :
    String × Option String :=
  match collectCodes fg bg sty with
  | Except.error e => ("", some e)
  | Except.ok cs => (String.join cs, none)

/-- A Python value as it can appear among the positional print arguments of
the wrappers: a string, None, or a list of strings (the styles list). -/
inductive PyVal
  | pstr (s : String)
  | pnone
  | plist (l : List String)
deriving DecidableEq

/-- Python str.join with a separator, as used by sep.join(strings) and by
print itself: empty for no parts, otherwise parts interleaved with sep. -/
def joinSep (sep : String) : List String → String
  | [] => ""
  | [a] => a
  | a :: b :: r => a ++ sep ++ joinSep sep (b :: r)

/-- Python str() on the argument values (str(None) is the text None; str of a
list of strings is its repr with single-quoted elements, faithful for names
without quotes, backslashes or control characters). -/
def pyStr : PyVal → String
  | PyVal.pstr s => s
  | PyVal.pnone => "None"
  | PyVal.plist l =>
    "[" ++ joinSep ", " (l.map (fun s => "'" ++ s ++ "'")) ++ "]"

/-- Output of the built-in print(*args): str of each argument, joined with a
space, followed by a newline. -/
def plain_print (args : List PyVal) : String :=
  joinSep " " (args.map pyStr) ++ "\n"

/-- Output written to sys.stdout by one call of the styled_print closure from
_create_styled_print: sep and end come from the keyword arguments (defaults a
space and a newline), every other keyword argument is discarded, and the
bytes written are the style codes, the sep-joined arguments, the reset code,
then end. -/
def styled_print (style_codes : String) (args : List PyVal)
    (kwargs : List (String × String)) : String :=
  let sep := (kwargs.lookup "sep").getD " "
  let endv := (kwargs.lookup "end").getD "\n"
  style_codes ++ joinSep sep (args.map pyStr) ++ RESET ++ endv

/-- The value of builtins.print at a program point: the original built-in or a
styled_print closure carrying its style codes. -/
inductive PrintFn
  | original
  | styled (codes : String)
deriving DecidableEq

/-- Program state relevant to printing: the current builtins.print and the
bytes written to sys.stdout so far. -/
structure PState where
  printFn : PrintFn
  out : String
deriving DecidableEq

/-- Output of calling the current print function with positional arguments
only (no keyword arguments). -/
def applyPrintOut : PrintFn → List PyVal → String
  | PrintFn.original, args => plain_print args
  | PrintFn.styled c, args => styled_print c args []

/-- Output of self.print_error(msg), unfolded: with color enabled the full
styled path (red code, the [ERROR] prefixed message, reset, newline, and the
trailing reset of the context exit); with color disabled the decorator prints
the five positional arguments (msg, ERROR, red, None, None) verbatim.
The lemma print_error_consistent below re-derives this from the general
wrapper semantics. -/
def print_error_out (en : Bool) (msg : String) : String :=
  if en then
    "\x1b[31m" ++ "[ERROR] " ++ msg ++ RESET ++ "\n" ++ RESET
  else
    plain_print [PyVal.pstr msg, PyVal.pstr "ERROR", PyVal.pstr "red",
                 PyVal.pnone, PyVal.pnone]

/-- Terminal._format_message: bracket-wrap a truthy prefix, otherwise return
the message unchanged. -/
def format_message (message : String) (pfx : Option String) : String :=
  match pfx with
  | some p => if p.isEmpty then message else "[" ++ p ++ "] " ++ message
  | none => message

/-- Entry of color_context when color is enabled: resolve the codes (printing
the error message through print_error on an invalid name), remember the
current builtins.print, and install the styled_print closure — even when
resolution failed and the codes are empty. Returns the new state and the
saved print function. -/
def ctxEnter (fg bg : Option String) (sty : StylesArg) (s : PState) :
    PState × PrintFn :=
  let r := get_style_codes fg bg sty
  let errOut :=
    match r.2 with
    | none => ""
    | some m => print_error_out true m
  (PState.mk (PrintFn.styled r.1) (s.out ++ errOut), s.printFn)

/-- Exit of color_context when color is enabled (the finally block): restore
the saved print function and write the reset sequence. -/
def ctxExit (saved : PrintFn) (s : PState) : PState :=
  PState.mk saved (s.out ++ RESET)

/-- Run of a with color_context(...) block. The body maps the state to a new
state plus a flag that is true when an exception propagates out of the block.
With color disabled the generator just yields (no install, no restore); with
color enabled the finally clause restores the saved print function and emits
the reset on both the normal and the exceptional path. -/
def runCtx (en : Bool) (fg bg : Option String) (sty : StylesArg)
    (body : PState → PState × Bool) (s : PState) : PState × Bool :=
  if en then
    (ctxExit (ctxEnter fg bg sty s).2 (body (ctxEnter fg bg sty s).1).1,
     (body (ctxEnter fg bg sty s).1).2)
  else body s

/-- Body of _print_styled once the decorator let it through (color enabled):
format the message and print it inside the color context; the print call
inside the block goes through the installed styled print function. -/
def print_styled_body (message : String) (pfx fg bg : Option String)
    (sty : StylesArg) (s : PState) : PState :=
  (runCtx true fg bg sty
    (fun s1 =>
      (PState.mk s1.printFn
        (s1.out ++ applyPrintOut s1.printFn
          [PyVal.pstr (format_message message pfx)]), false)) s).1

/-- A call of the decorated _print_styled. callArgs is the exact positional
argument tuple of the call site: when color is disabled the decorator prints
it raw through the current print function and returns; otherwise the wrapped
body runs with the bound parameters. -/
def print_styled_call (en : Bool) (callArgs : List PyVal) (message : String)
    (pfx fg bg : Option String) (sty : StylesArg) (s : PState) : PState :=
  if en then print_styled_body message pfx fg bg sty s
  else PState.mk s.printFn (s.out ++ applyPrintOut s.printFn callArgs)

/-- An optional-string argument as the Python value passed along. -/
def pyOfOptStr : Option String → PyVal
  | none => PyVal.pnone
  | some s => PyVal.pstr s

/-- A styles argument as the Python value passed along. -/
def pyOfSty : StylesArg → PyVal
  | StylesArg.noneArg => PyVal.pnone
  | StylesArg.strArg s => PyVal.pstr s
  | StylesArg.listArg l => PyVal.plist l

/-- Terminal.print_note: _print_styled(message, NOTE, green, bg_color,
styles), all positional. -/
def print_note (en : Bool) (message : String) (bg : Option String)
    (sty : StylesArg) (s : PState) : PState :=
  print_styled_call en
    [PyVal.pstr message, PyVal.pstr "NOTE", PyVal.pstr "green",
     pyOfOptStr bg, pyOfSty sty]
    message (some "NOTE") (some "green") bg sty s

/-- Terminal.print_warning: _print_styled(message, WARNING, yellow, bg_color,
styles). -/
def print_warning (en : Bool) (message : String) (bg : Option String)
    (sty : StylesArg) (s : PState) : PState :=
  print_styled_call en
    [PyVal.pstr message, PyVal.pstr "WARNING", PyVal.pstr "yellow",
     pyOfOptStr bg, pyOfSty sty]
    message (some "WARNING") (some "yellow") bg sty s

/-- Terminal.print_error: _print_styled(message, ERROR, red, bg_color,
styles). -/
def print_error (en : Bool) (message : String) (bg : Option String)
    (sty : StylesArg) (s : PState) : PState :=
  print_styled_call en
    [PyVal.pstr message, PyVal.pstr "ERROR", PyVal.pstr "red",
     pyOfOptStr bg, pyOfSty sty]
    message (some "ERROR") (some "red") bg sty s

/-- Terminal.print_info: _print_styled(message, INFO, cyan, bg_color,
styles). -/
def print_info (en : Bool) (message : String) (bg : Option String)
    (sty : StylesArg) (s : PState) : PState :=
  print_styled_call en
    [PyVal.pstr message, PyVal.pstr "INFO", PyVal.pstr "cyan",
     pyOfOptStr bg, pyOfSty sty]
    message (some "INFO") (some "cyan") bg sty s

/-- Terminal.cprint: _print_styled(message, None, fg_color, bg_color,
styles). -/
def cprint (en : Bool) (message : String) (fg : String) (bg : Option String)
    (sty : StylesArg) (s : PState) : PState :=
  print_styled_call en
    [PyVal.pstr message, PyVal.pnone, PyVal.pstr fg,
     pyOfOptStr bg, pyOfSty sty]
    message none (some fg) bg sty s

/-- The attributes of a Terminal instance that matter for the dead write
helpers: the computed color flag, and which of the two saved-output
attributes __init__ actually sets (it sets _original_print and never
_original_stdout). -/
structure Terminal where
  force_color : Bool
  color_enabled : Bool
  has_original_print : Bool
  has_original_stdout : Bool
deriving DecidableEq

/-- Terminal.__init__: color is enabled by the force flag, or by an
interactive stdout without the NO_COLOR environment opt-out; _original_print
is set, _original_stdout is not. -/
def Terminal.init (force isatty no_color : Bool) : Terminal :=
  Terminal.mk force (force || (isatty && !no_color)) true false

/-- Terminal._write_style_end: writes the reset through self._original_stdout;
reading that attribute raises AttributeError when __init__ did not set it.
The ok value is the text written. -/
def write_style_end (t : Terminal) : Except String String :=
  if t.has_original_stdout then Except.ok RESET
  else Except.error "AttributeError: _original_stdout"

/-- Terminal._write_style_begin: the same resolution loop as
_get_style_codes (an invalid name prints the error and returns, writing
nothing); with a nonempty codes list it writes the joined codes through
self._original_stdout, which raises AttributeError when the attribute is
missing. The ok value is the text emitted. -/
def write_style_begin (t : Terminal) (fg bg : Option String)
    (sty : StylesArg) : Except String String :=
  match collectCodes fg bg sty with
  | Except.error e => Except.ok (print_error_out t.color_enabled e)
  | Except.ok [] => Except.ok ""
  | Except.ok cs =>
    if t.has_original_stdout then Except.ok (String.join cs)
    else Except.error "AttributeError: _original_stdout"

/-- A string is escape-free when it contains no ESC character. -/
def escFree (s : String) : Prop := ∀ c ∈ s.data, c ≠ '\x1b'

instance (s : String) : Decidable (escFree s) :=
  inferInstanceAs (Decidable (∀ c ∈ s.data, c ≠ '\x1b'))

/-- Escape-freeness of an optional string argument. -/
def escFreeOpt : Option String → Prop
  | none => True
  | some s => escFree s

/-- Escape-freeness of a styles argument. -/
def escFreeSty : StylesArg → Prop
  | StylesArg.noneArg => True
  | StylesArg.strArg s => escFree s
  | StylesArg.listArg l => ∀ s ∈ l, escFree s

/-- Escape-freeness of a Python argument value. -/
def escFreeVal : PyVal → Prop
  | PyVal.pstr s => escFree s
  | PyVal.pnone => True
  | PyVal.plist l => ∀ s ∈ l, escFree s

/-- Specification-side ordered lookup of a list of style names: the code of
each name in the given order, none as soon as one name is unknown. Used to
state the composition order of claim C4 against styStepList. -/
def styleLookupAll : List String → Option (List String)
  | [] => some []
  | s :: rest =>
    match resolveStyle s with
    | none => none
    | some c =>
      match styleLookupAll rest with
      | none => none
      | some cs => some (c :: cs)

/-- A with-block body that raises: it leaves the state unchanged and lets an
exception propagate. Used as the concrete error exit path in witnesses. -/
def raiseBody : PState → PState × Bool := fun s => (s, true)

/-- A with-block body that completes normally without touching the state. -/
def idBody : PState → PState × Bool := fun s => (s, false)

theorem red_resolves : get_style_codes (some "red") none StylesArg.noneArg
    = ("\x1b[31m", none) := by decide

/-- Validation of the closed form print_error_out: it agrees with running the
print_error wrapper through the general decorated-call semantics, on both the
color-enabled and the color-disabled path. -/
theorem print_error_consistent (en : Bool) (m : String) :
    (print_error en m none StylesArg.noneArg
        (PState.mk PrintFn.original "")).out = print_error_out en m := by
  cases en
  · rfl
  · have hE : ("ERROR" : String).isEmpty = false := by decide
    apply String.ext
    simp [print_error, print_styled_call, print_styled_body, runCtx, ctxEnter,
          ctxExit, red_resolves, format_message, hE, applyPrintOut,
          styled_print, plain_print, joinSep, pyStr, print_error_out, RESET,
          List.lookup, String.data_append]

/-- C1: the claim says that with ColorSupport false each print operation
writes exactly the plain formatted message ([PREFIX] message) and a newline.
The code instead has the check_terminal_support decorator print the raw
positional argument tuple: print_note(Build ok) with color disabled writes
the message followed by NOTE, green, None, None, space-separated, not
[NOTE] Build ok. This theorem evaluates the code at that failing input. -/
theorem c1_disabled_print_note_raw_args :
    (print_note false "Build ok" none StylesArg.noneArg
        (PState.mk PrintFn.original "")).out
      = "Build ok NOTE green None None\n"
    ∧ (print_note false "Build ok" none StylesArg.noneArg
        (PState.mk PrintFn.original "")).out
      ≠ "[NOTE] Build ok\n" := by decide

/-- C2: counterexample. The claim says the newline is the last byte written;
the color_context finally block writes one more reset sequence after the
newline, so the output is not the claimed byte sequence. -/
theorem c2_newline_not_last_counterexample :
    (print_styled_body "Build ok" (some "NOTE") (some "green") none
        StylesArg.noneArg (PState.mk PrintFn.original "")).out
      ≠ "\x1b[32m[NOTE] Build ok\x1b[0m\n" := by decide

/-- C2 amended: with color enabled, the styled print of Build ok with prefix
NOTE and foreground green writes ESC[32m, the text [NOTE] Build ok, the reset
ESC[0m, the newline, and then one further reset ESC[0m emitted by the context
exit — the trailing reset, not the newline, is the last byte written. -/
theorem c2_styled_example_trailing_reset :
    (print_styled_body "Build ok" (some "NOTE") (some "green") none
        StylesArg.noneArg (PState.mk PrintFn.original "")).out
      = "\x1b[32m[NOTE] Build ok\x1b[0m\n\x1b[0m" := by decide

/-- C3: counterexample. The claim says the failing print call is aborted and
its own message is not printed. In the code, _get_style_codes prints the
error notice and returns an empty code string, after which color_context
proceeds and the message is printed anyway (unstyled, with resets): the
output of the usage-example call strictly extends the error notice by the
message itself. -/
theorem c3_message_printed_counterexample :
    (cprint true "This will show an error message" "invalid_color" none
        StylesArg.noneArg (PState.mk PrintFn.original "")).out
      = "\x1b[31m[ERROR] Invalid color: invalid_color\x1b[0m\n\x1b[0m" ++
        "This will show an error message\x1b[0m\n\x1b[0m"
    ∧ (cprint true "This will show an error message" "invalid_color" none
        StylesArg.noneArg (PState.mk PrintFn.original "")).out
      ≠ "\x1b[31m[ERROR] Invalid color: invalid_color\x1b[0m\n\x1b[0m" := by
  decide

/-- C3 amended: an unknown foreground color name is non-fatal — a visible
error notice naming the invalid identifier is printed through the styled
error path, and the print call then proceeds with an empty code set: its own
message is still printed, without the requested styling, followed by the
reset and newline and the context-exit reset. -/
theorem c3_invalid_color_nonfatal_amended (msg name : String)
    (h1 : name.isEmpty = false) (h2 : resolveColor name = none) :
    (cprint true msg name none StylesArg.noneArg
        (PState.mk PrintFn.original "")).out
      = print_error_out true ("Invalid color: " ++ name)
        ++ msg ++ RESET ++ "\n" ++ RESET := by
  apply String.ext
  simp [cprint, print_styled_call, print_styled_body, runCtx, ctxEnter,
        ctxExit, get_style_codes, collectCodes, fgStep, bgStep, styStep,
        truthyStr, truthySty, optVal, h1, h2, format_message, applyPrintOut,
        styled_print, plain_print, joinSep, pyStr, print_error_out, RESET,
        List.lookup, String.data_append]

/-- C3 amended, witness at the spec's chartreuse example. -/
theorem c3_invalid_color_nonfatal_amended_witness :
    (cprint true "Hello" "chartreuse" none StylesArg.noneArg
        (PState.mk PrintFn.original "")).out
      = print_error_out true ("Invalid color: " ++ "chartreuse")
        ++ "Hello" ++ RESET ++ "\n" ++ RESET :=
  c3_invalid_color_nonfatal_amended "Hello" "chartreuse" (by decide)
    (by decide)

theorem styStepList_of_lookupAll (l : List String) (cs : List String)
    (h : styleLookupAll l = some cs) : styStepList l = Except.ok cs := by
  induction l generalizing cs with
  | nil =>
    simp [styleLookupAll] at h
    subst h
    rfl
  | cons a r ih =>
    simp only [styleLookupAll] at h
    cases ha : resolveStyle a with
    | none => simp [ha] at h
    | some c =>
      simp only [ha] at h
      cases hr : styleLookupAll r with
      | none => simp [hr] at h
      | some cs2 =>
        simp only [hr, Option.some.injEq] at h
        subst h
        simp [styStepList, ha, ih cs2 hr]

/-- C4: name resolution is case-insensitive (names agreeing after lowering
resolve identically in all three tables), each documented name resolves to
exactly the documented escape sequence, and on an all-valid request the codes
are concatenated in the order foreground, background, then the styles in the
order given. -/
theorem c4_resolution_case_insensitive_exact_codes :
    (∀ s t : String, strLower s = strLower t →
        resolveColor s = resolveColor t
        ∧ resolveBackground s = resolveBackground t
        ∧ resolveStyle s = resolveStyle t)
    ∧ (resolveColor "black" = some "\x1b[30m"
       ∧ resolveColor "red" = some "\x1b[31m"
       ∧ resolveColor "green" = some "\x1b[32m"
       ∧ resolveColor "yellow" = some "\x1b[33m"
       ∧ resolveColor "blue" = some "\x1b[34m"
       ∧ resolveColor "magenta" = some "\x1b[35m"
       ∧ resolveColor "cyan" = some "\x1b[36m"
       ∧ resolveColor "light_gray" = some "\x1b[37m"
       ∧ resolveColor "default" = some "\x1b[39m"
       ∧ resolveColor "dark_gray" = some "\x1b[90m"
       ∧ resolveColor "light_red" = some "\x1b[91m"
       ∧ resolveColor "light_green" = some "\x1b[92m"
       ∧ resolveColor "light_yellow" = some "\x1b[93m"
       ∧ resolveColor "light_blue" = some "\x1b[94m"
       ∧ resolveColor "light_magenta" = some "\x1b[95m"
       ∧ resolveColor "light_cyan" = some "\x1b[96m"
       ∧ resolveColor "white" = some "\x1b[97m"
       ∧ resolveBackground "black" = some "\x1b[40m"
       ∧ resolveBackground "red" = some "\x1b[41m"
       ∧ resolveBackground "green" = some "\x1b[42m"
       ∧ resolveBackground "yellow" = some "\x1b[43m"
       ∧ resolveBackground "blue" = some "\x1b[44m"
       ∧ resolveBackground "magenta" = some "\x1b[45m"
       ∧ resolveBackground "cyan" = some "\x1b[46m"
       ∧ resolveBackground "light_gray" = some "\x1b[47m"
       ∧ resolveBackground "default" = some "\x1b[49m"
       ∧ resolveBackground "dark_gray" = some "\x1b[100m"
       ∧ resolveBackground "light_red" = some "\x1b[101m"
       ∧ resolveBackground "light_green" = some "\x1b[102m"
       ∧ resolveBackground "light_yellow" = some "\x1b[103m"
       ∧ resolveBackground "light_blue" = some "\x1b[104m"
       ∧ resolveBackground "light_magenta" = some "\x1b[105m"
       ∧ resolveBackground "light_cyan" = some "\x1b[106m"
       ∧ resolveBackground "white" = some "\x1b[107m"
       ∧ resolveStyle "bold" = some "\x1b[1m"
       ∧ resolveStyle "dim" = some "\x1b[2m"
       ∧ resolveStyle "italic" = some "\x1b[3m"
       ∧ resolveStyle "underline" = some "\x1b[4m"
       ∧ resolveStyle "blink" = some "\x1b[5m"
       ∧ resolveStyle "reverse" = some "\x1b[7m"
       ∧ resolveStyle "hidden" = some "\x1b[8m"
       ∧ resolveStyle "strike" = some "\x1b[9m")
    ∧ (∀ (fg bg : String) (sts : List String) (cf cb : String)
          (csl : List String),
        fg.isEmpty = false → bg.isEmpty = false →
        resolveColor fg = some cf → resolveBackground bg = some cb →
        styleLookupAll sts = some csl →
        get_style_codes (some fg) (some bg) (StylesArg.listArg sts)
          = (String.join (cf :: cb :: csl), none)) := by
  refine ⟨?_, by decide, ?_⟩
  · intro s t h
    exact ⟨by simp [resolveColor, h], by simp [resolveBackground, h],
           by simp [resolveStyle, h]⟩
  · intro fg bg sts cf cb csl h1 h2 h3 h4 h5
    cases sts with
    | nil =>
      simp [styleLookupAll] at h5
      subst h5
      simp [get_style_codes, collectCodes, fgStep, bgStep, styStep, truthyStr,
            truthySty, styList, optVal, h1, h2, h3, h4]
    | cons a r =>
      have hsl := styStepList_of_lookupAll (a :: r) csl h5
      simp [get_style_codes, collectCodes, fgStep, bgStep, styStep, truthyStr,
            truthySty, styList, optVal, h1, h2, h3, h4, hsl]

/-- C4 witness: a mixed-case name resolves like its lowercase form, and a
concrete all-valid compound request yields the codes in request order. -/
theorem c4_resolution_witness :
    (resolveColor "GrEeN" = resolveColor "green"
     ∧ resolveBackground "GrEeN" = resolveBackground "green"
     ∧ resolveStyle "GrEeN" = resolveStyle "green")
    ∧ get_style_codes (some "red") (some "BLUE")
        (StylesArg.listArg ["bold", "underline"])
      = (String.join ["\x1b[31m", "\x1b[44m", "\x1b[1m", "\x1b[4m"], none) :=
  ⟨c4_resolution_case_insensitive_exact_codes.1 "GrEeN" "green" (by decide),
   c4_resolution_case_insensitive_exact_codes.2.2 "red" "BLUE"
     ["bold", "underline"] "\x1b[31m" "\x1b[44m" ["\x1b[1m", "\x1b[4m"]
     (by decide) (by decide) (by decide) (by decide) (by decide)⟩

theorem styStepList_error (l : List String) (e : String)
    (h : styStepList l = Except.error e) :
    ∃ st, st ∈ l ∧ resolveStyle st = none
      ∧ e = "Invalid style: " ++ st := by
  induction l with
  | nil => simp [styStepList] at h
  | cons a r ih =>
    simp only [styStepList] at h
    cases ha : resolveStyle a with
    | none =>
      simp only [ha, Except.error.injEq] at h
      exact ⟨a, List.mem_cons_self a r, ha, h.symm⟩
    | some c =>
      simp only [ha] at h
      cases hr : styStepList r with
      | error e2 =>
        simp only [hr, Except.error.injEq] at h
        subst h
        obtain ⟨st, hm, hn, he⟩ := ih hr
        exact ⟨st, List.mem_cons_of_mem a hm, hn, he⟩
      | ok cs => simp [hr] at h

theorem collectCodes_error (fg bg : Option String) (sty : StylesArg)
    (e : String) (h : collectCodes fg bg sty = Except.error e) :
    (∃ f, fg = some f ∧ resolveColor f = none
       ∧ e = "Invalid color: " ++ f)
    ∨ (∃ b, bg = some b ∧ resolveBackground b = none
       ∧ e = "Invalid background color: " ++ b)
    ∨ (∃ st, st ∈ styList sty ∧ resolveStyle st = none
       ∧ e = "Invalid style: " ++ st) := by
  unfold collectCodes at h
  cases hf : fgStep fg with
  | error e1 =>
    simp only [hf, Except.error.injEq] at h
    left
    unfold fgStep at hf
    by_cases ht : truthyStr fg = true
    · rw [if_pos ht] at hf
      cases fg with
      | none => simp [truthyStr] at ht
      | some f =>
        cases hr : resolveColor (optVal (some f)) with
        | some c => simp [hr] at hf
        | none =>
          simp only [hr, Except.error.injEq] at hf
          simp only [optVal] at hr hf
          exact ⟨f, rfl, hr, by rw [← h, ← hf]⟩
    · rw [if_neg ht] at hf
      cases hf
  | ok cf =>
    simp only [hf] at h
    cases hb : bgStep bg with
    | error e1 =>
      simp only [hb, Except.error.injEq] at h
      right; left
      unfold bgStep at hb
      by_cases ht : truthyStr bg = true
      · rw [if_pos ht] at hb
        cases bg with
        | none => simp [truthyStr] at ht
        | some b =>
          cases hr : resolveBackground (optVal (some b)) with
          | some c => simp [hr] at hb
          | none =>
            simp only [hr, Except.error.injEq] at hb
            simp only [optVal] at hr hb
            exact ⟨b, rfl, hr, by rw [← h, ← hb]⟩
      · rw [if_neg ht] at hb
        cases hb
    | ok cb =>
      simp only [hb] at h
      cases hs : styStep sty with
      | error e1 =>
        simp only [hs, Except.error.injEq] at h
        right; right
        unfold styStep at hs
        by_cases ht : truthySty sty = true
        · rw [if_pos ht] at hs
          obtain ⟨st, hm, hn, he⟩ := styStepList_error _ _ hs
          exact ⟨st, hm, hn, by rw [← h, he]⟩
        · rw [if_neg ht] at hs
          cases hs
      | ok cs => simp [hs] at h

/-- C5: whenever _get_style_codes reports an invalid name, it returns the
empty code string — never a partial concatenation of the codes already found
— and the message handed to print_error names the invalid identifier (the
foreground, background, or style name whose lookup failed). -/
theorem c5_no_partial_codes_on_error (fg bg : Option String)
    (sty : StylesArg) (m : String)
    (h : (get_style_codes fg bg sty).2 = some m) :
    (get_style_codes fg bg sty).1 = ""
    ∧ ((∃ f, fg = some f ∧ resolveColor f = none
          ∧ m = "Invalid color: " ++ f)
       ∨ (∃ b, bg = some b ∧ resolveBackground b = none
          ∧ m = "Invalid background color: " ++ b)
       ∨ (∃ st, st ∈ styList sty ∧ resolveStyle st = none
          ∧ m = "Invalid style: " ++ st)) := by
  cases hc : collectCodes fg bg sty with
  | ok cs => simp [get_style_codes, hc] at h
  | error e =>
    simp only [get_style_codes, hc, Option.some.injEq] at h
    subst h
    exact ⟨by simp [get_style_codes, hc], collectCodes_error fg bg sty e hc⟩

/-- C5 witness at the spec's chartreuse example. -/
theorem c5_no_partial_codes_witness :
    (get_style_codes (some "chartreuse") none StylesArg.noneArg).1 = ""
    ∧ ((∃ f, (some "chartreuse" : Option String) = some f
          ∧ resolveColor f = none
          ∧ "Invalid color: chartreuse" = "Invalid color: " ++ f)
       ∨ (∃ b, (none : Option String) = some b
          ∧ resolveBackground b = none
          ∧ "Invalid color: chartreuse" = "Invalid background color: " ++ b)
       ∨ (∃ st, st ∈ styList StylesArg.noneArg ∧ resolveStyle st = none
          ∧ "Invalid color: chartreuse" = "Invalid style: " ++ st)) :=
  c5_no_partial_codes_on_error (some "chartreuse") none StylesArg.noneArg
    "Invalid color: chartreuse" (by decide)

/-- C6: for every styling request and every body — normal completion or an
exception propagating out of the scope — once entered from the default
output path, the context ends with the default print function restored, and
with color enabled the reset sequence is emitted on exit (the finally block
runs on both exit paths). With color disabled the context is a pure
pass-through, so a body that leaves the print function alone also leaves it
at the default. -/
theorem c6_context_restores_on_all_exits (en : Bool) (fg bg : Option String)
    (sty : StylesArg) (body : PState → PState × Bool) (s : PState)
    (hs : s.printFn = PrintFn.original)
    (hb : ∀ s', ((body s').1).printFn = s'.printFn) :
    ((runCtx en fg bg sty body s).1).printFn = PrintFn.original
    ∧ (en = true →
        ∃ r, ((runCtx en fg bg sty body s).1).out = r ++ RESET) := by
  cases en
  · refine ⟨?_, fun hcon => absurd hcon (by decide)⟩
    simp [runCtx, hb, hs]
  · refine ⟨?_, fun hen =>
      ⟨((body (ctxEnter fg bg sty s).1).1).out, ?_⟩⟩
    · simp [runCtx, ctxExit, ctxEnter, hs]
    · simp [runCtx, ctxExit]

/-- C6 witness: a color-enabled context whose body raises still restores the
original print function and emits the reset. -/
theorem c6_context_restores_witness :
    ((runCtx true (some "green") none StylesArg.noneArg raiseBody
        (PState.mk PrintFn.original "")).1).printFn = PrintFn.original
    ∧ (true = true →
        ∃ r, ((runCtx true (some "green") none StylesArg.noneArg raiseBody
            (PState.mk PrintFn.original "")).1).out = r ++ RESET) :=
  c6_context_restores_on_all_exits true (some "green") none StylesArg.noneArg
    raiseBody (PState.mk PrintFn.original "") rfl (fun _ => rfl)

/-- C8: inside an outer color-enabled context, running an inner context over
any body restores the outer context's styled print function — the one
installed by the outer enter, not the unstyled default — because the inner
exit reinstates exactly the print function it saved on entry (stack
discipline). -/
theorem c8_nested_context_stack_discipline (fg1 bg1 : Option String)
    (sty1 : StylesArg) (fg2 bg2 : Option String) (sty2 : StylesArg)
    (body : PState → PState × Bool) (s0 : PState) :
    ((runCtx true fg2 bg2 sty2 body
        (ctxEnter fg1 bg1 sty1 s0).1).1).printFn
      = ((ctxEnter fg1 bg1 sty1 s0).1).printFn
    ∧ ((ctxEnter fg1 bg1 sty1 s0).1).printFn
      = PrintFn.styled (get_style_codes fg1 bg1 sty1).1
    ∧ ((runCtx true fg2 bg2 sty2 body
        (ctxEnter fg1 bg1 sty1 s0).1).1).printFn ≠ PrintFn.original := by
  refine ⟨?_, ?_, ?_⟩
  · simp [runCtx, ctxExit, ctxEnter]
  · simp [ctxEnter]
  · simp [runCtx, ctxExit, ctxEnter]

/-- C9: on a Terminal as constructed by __init__ (which sets _original_print
but never _original_stdout), _write_style_end always raises AttributeError,
and _write_style_begin raises AttributeError on any style request that
resolves to at least one code. -/
theorem c9_write_helpers_attribute_error (force isatty no_color : Bool)
    (fg bg : Option String) (sty : StylesArg) (cs : List String)
    (h1 : collectCodes fg bg sty = Except.ok cs) (h2 : cs ≠ []) :
    write_style_end (Terminal.init force isatty no_color)
      = Except.error "AttributeError: _original_stdout"
    ∧ write_style_begin (Terminal.init force isatty no_color) fg bg sty
      = Except.error "AttributeError: _original_stdout" := by
  constructor
  · rfl
  · cases cs with
    | nil => exact absurd rfl h2
    | cons c rest => simp [write_style_begin, h1, Terminal.init]

/-- C9 witness: a default-constructed Terminal on an interactive stdout, with
a request resolving to the single green code. -/
theorem c9_write_helpers_witness :
    write_style_end (Terminal.init false true false)
      = Except.error "AttributeError: _original_stdout"
    ∧ write_style_begin (Terminal.init false true false) (some "green") none
        StylesArg.noneArg
      = Except.error "AttributeError: _original_stdout" :=
  c9_write_helpers_attribute_error false true false (some "green") none
    StylesArg.noneArg ["\x1b[32m"] rfl (by decide)

/-- C10: the substituted print function honors the sep and end keyword
arguments (defaulting to a space and a newline), writes the reset sequence
immediately before end, and silently discards every other keyword argument —
in particular a file argument — so its output is the same string written to
sys.stdout whatever destination was requested. -/
theorem c10_styled_print_kwargs (codes sep endv k v : String)
    (args : List PyVal) (kwargs : List (String × String))
    (hk1 : k ≠ "sep") (hk2 : k ≠ "end") :
    styled_print codes args (("sep", sep) :: ("end", endv) :: kwargs)
      = codes ++ joinSep sep (args.map pyStr) ++ RESET ++ endv
    ∧ styled_print codes args []
      = codes ++ joinSep " " (args.map pyStr) ++ RESET ++ "\n"
    ∧ styled_print codes args ((k, v) :: kwargs)
      = styled_print codes args kwargs := by
  refine ⟨rfl, rfl, ?_⟩
  have e1 : ("sep" == k) = false := beq_eq_false_iff_ne.mpr (Ne.symm hk1)
  have e2 : ("end" == k) = false := beq_eq_false_iff_ne.mpr (Ne.symm hk2)
  simp [styled_print, List.lookup, e1, e2]

/-- C10 witness: explicit sep and end are honored; a file keyword argument is
discarded. -/
theorem c10_styled_print_witness :
    styled_print "\x1b[32m" [PyVal.pstr "x"]
        (("sep", "-") :: ("end", "!") :: [])
      = "\x1b[32m" ++ joinSep "-" ([PyVal.pstr "x"].map pyStr) ++ RESET ++ "!"
    ∧ styled_print "\x1b[32m" [PyVal.pstr "x"] []
      = "\x1b[32m" ++ joinSep " " ([PyVal.pstr "x"].map pyStr) ++ RESET
        ++ "\n"
    ∧ styled_print "\x1b[32m" [PyVal.pstr "x"] (("file", "stderr") :: [])
      = styled_print "\x1b[32m" [PyVal.pstr "x"] [] :=
  c10_styled_print_kwargs "\x1b[32m" "-" "!" "file" "stderr"
    [PyVal.pstr "x"] [] (by decide) (by decide)

theorem escFree_append (a b : String) (ha : escFree a) (hb : escFree b) :
    escFree (a ++ b) := by
  intro c hc
  rw [String.data_append] at hc
  rcases List.mem_append.1 hc with h | h
  · exact ha c h
  · exact hb c h

theorem escFree_joinSep (sep : String) : ∀ l : List String,
    escFree sep → (∀ x ∈ l, escFree x) → escFree (joinSep sep l)
  | [], _, _ => by intro c hc; simp [joinSep] at hc
  | [a], _, h => h a (by simp)
  | a :: b :: r, hsep, h =>
    escFree_append _ _
      (escFree_append _ _ (h a (by simp)) hsep)
      (escFree_joinSep sep (b :: r) hsep (fun x hx => h x (by simp [hx])))

theorem escFree_pyStr (v : PyVal) (h : escFreeVal v) : escFree (pyStr v) := by
  cases v with
  | pstr s => exact h
  | pnone => decide
  | plist l =>
    apply escFree_append
    · apply escFree_append
      · decide
      · apply escFree_joinSep
        · decide
        · intro x hx
          obtain ⟨s, hs, rfl⟩ := List.mem_map.1 hx
          exact escFree_append _ _
            (escFree_append _ _ (by decide) (h s hs)) (by decide)
    · decide

theorem escFree_plain_print (args : List PyVal)
    (h : ∀ a ∈ args, escFreeVal a) : escFree (plain_print args) := by
  apply escFree_append
  · apply escFree_joinSep
    · decide
    · intro x hx
      obtain ⟨v, hv, rfl⟩ := List.mem_map.1 hx
      exact escFree_pyStr v (h v hv)
  · decide

theorem escFreeVal_pyOfOptStr (o : Option String) (h : escFreeOpt o) :
    escFreeVal (pyOfOptStr o) := by
  cases o with
  | none => trivial
  | some s => exact h

theorem escFreeVal_pyOfSty (st : StylesArg) (h : escFreeSty st) :
    escFreeVal (pyOfSty st) := by
  cases st with
  | noneArg => trivial
  | strArg s => exact h
  | listArg l => exact h

theorem escFree_wrapper_args (message p1 p2 : String) (bg : Option String)
    (sty : StylesArg) (hm : escFree message) (hp1 : escFree p1)
    (hp2 : escFree p2) (hbg : escFreeOpt bg) (hsty : escFreeSty sty) :
    ∀ a ∈ [PyVal.pstr message, PyVal.pstr p1, PyVal.pstr p2,
           pyOfOptStr bg, pyOfSty sty], escFreeVal a := by
  intro a ha
  simp only [List.mem_cons, List.not_mem_nil, or_false] at ha
  rcases ha with rfl | rfl | rfl | rfl | rfl
  · exact hm
  · exact hp1
  · exact hp2
  · exact escFreeVal_pyOfOptStr bg hbg
  · exact escFreeVal_pyOfSty sty hsty

/-- C7: with ColorSupport false, no Terminal operation emits an escape
sequence: each print wrapper, a direct _print_styled call, and the scoped
context degrade to plain output — the bytes written contain no ESC character
whenever the caller-supplied texts contain none, and the context is a pure
pass-through that writes nothing of its own. -/
theorem c7_disabled_no_escape_bytes (message fg : String)
    (bg pfx : Option String) (sty : StylesArg) (callArgs : List PyVal)
    (body : PState → PState × Bool) (s : PState)
    (hm : escFree message) (hfg : escFree fg) (hbg : escFreeOpt bg)
    (hsty : escFreeSty sty) (hca : ∀ a ∈ callArgs, escFreeVal a) :
    escFree ((print_note false message bg sty
        (PState.mk PrintFn.original "")).out)
    ∧ escFree ((print_warning false message bg sty
        (PState.mk PrintFn.original "")).out)
    ∧ escFree ((print_error false message bg sty
        (PState.mk PrintFn.original "")).out)
    ∧ escFree ((print_info false message bg sty
        (PState.mk PrintFn.original "")).out)
    ∧ escFree ((cprint false message fg bg sty
        (PState.mk PrintFn.original "")).out)
    ∧ escFree ((print_styled_call false callArgs message pfx (some fg) bg sty
        (PState.mk PrintFn.original "")).out)
    ∧ runCtx false (some fg) bg sty body s = body s := by
  refine ⟨?_, ?_, ?_, ?_, ?_, ?_, rfl⟩
  · exact escFree_append _ _ (by decide)
      (escFree_plain_print _
        (escFree_wrapper_args message "NOTE" "green" bg sty hm (by decide)
          (by decide) hbg hsty))
  · exact escFree_append _ _ (by decide)
      (escFree_plain_print _
        (escFree_wrapper_args message "WARNING" "yellow" bg sty hm (by decide)
          (by decide) hbg hsty))
  · exact escFree_append _ _ (by decide)
      (escFree_plain_print _
        (escFree_wrapper_args message "ERROR" "red" bg sty hm (by decide)
          (by decide) hbg hsty))
  · exact escFree_append _ _ (by decide)
      (escFree_plain_print _
        (escFree_wrapper_args message "INFO" "cyan" bg sty hm (by decide)
          (by decide) hbg hsty))
  · refine escFree_append _ _ (by decide) (escFree_plain_print _ ?_)
    intro a ha
    simp only [List.mem_cons, List.not_mem_nil, or_false] at ha
    rcases ha with rfl | rfl | rfl | rfl | rfl
    · exact hm
    · trivial
    · exact hfg
    · exact escFreeVal_pyOfOptStr bg hbg
    · exact escFreeVal_pyOfSty sty hsty
  · exact escFree_append _ _ (by decide) (escFree_plain_print _ hca)

/-- C7 witness at concrete escape-free inputs. -/
theorem c7_disabled_no_escape_witness :
    escFree ((print_note false "hi" none StylesArg.noneArg
        (PState.mk PrintFn.original "")).out)
    ∧ escFree ((print_warning false "hi" none StylesArg.noneArg
        (PState.mk PrintFn.original "")).out)
    ∧ escFree ((print_error false "hi" none StylesArg.noneArg
        (PState.mk PrintFn.original "")).out)
    ∧ escFree ((print_info false "hi" none StylesArg.noneArg
        (PState.mk PrintFn.original "")).out)
    ∧ escFree ((cprint false "hi" "green" none StylesArg.noneArg
        (PState.mk PrintFn.original "")).out)
    ∧ escFree ((print_styled_call false [] "hi" none (some "green") none
        StylesArg.noneArg (PState.mk PrintFn.original "")).out)
    ∧ runCtx false (some "green") none StylesArg.noneArg idBody
        (PState.mk PrintFn.original "") = idBody
          (PState.mk PrintFn.original "") :=
  c7_disabled_no_escape_bytes "hi" "green" none none StylesArg.noneArg []
    idBody (PState.mk PrintFn.original "") (by decide) (by decide)
    trivial trivial (fun a ha => absurd ha (List.not_mem_nil a))

end TermColor
